import Mathlib

/-!
# Verification of the `sshhttpproxy` forwarding core (`proxy/proxy.go`)

Shallow embedding of the repository's core component, the `SSHProxy` of
`proxy/proxy.go`: an SSH client that forwards local TCP ports through a
single SSH transport.

Modelling conventions:
* External effects (`ioutil.ReadFile`, `ssh.ParsePrivateKey`, `ssh.Dial`,
  `conn.Dial`, `net.Listen`) are supplied by environment records of
  functions, so that each code path of the Go source is a computable Lean
  function of the environment's answers.
* Handles (`*ssh.Client` connections, remote channels, signers) are
  modelled as `Nat` identifiers; `nil` pointers are `Option.none`.
* The goroutines spawned by `Forward` (the accept loop) and by
  `handleClient` (the two copy directions plus the teardown goroutine) are
  modelled as explicit state machines driven by event traces, mirroring
  the Go control flow statement by statement.
* `sync.WaitGroup` bookkeeping is explicit: `wgCount` counts outstanding
  `Add(1)` registrations; each task machine records whether it has called
  `Done` yet.
* Error log lines (`logger.Errorf`/`Infof`) are accumulated as strings;
  `logger.Debugf` trace lines are not modelled (no property concerns them).
-/

namespace SshHttpProxy

/-- `Config` from `proxy/proxy.go`: `PrivateKeyPath`, `RemoteUser`,
`RemoteAddress`. Immutable after construction. -/
structure Config where
  privateKeyPath : String
  remoteUser : String
  remoteAddress : String
deriving DecidableEq, Repr

/-- The `SSHProxy` struct. `conn` is the `*ssh.Client` transport handle
(`none` models the `nil` pointer), `ctx` the stored `context.Context`
(opaque, modelled as a `Nat` tag), `wgCount` the counter of the shared
`sync.WaitGroup` `wg`, `doneClosed` whether the `done` channel has been
closed. `watchers` and `loops` additionally count the transport-watcher
goroutines spawned by `Connect` and the accept-loop goroutines spawned by
`Forward` (the Go struct does not store these; they record which
long-lived tasks have been started). -/
structure SSHProxy where
  cfg : Config
  conn : Option Nat
  ctx : Nat
  wgCount : Nat
  doneClosed : Bool
  watchers : Nat
  loops : Nat
deriving DecidableEq, Repr

/-- `New(cfg)`: fresh proxy with a background context, a fresh WaitGroup
and an open `done` channel. (The Go function also returns a `nil` error,
unconditionally.) -/
def New (cfg : Config) : SSHProxy :=
  { cfg := cfg, conn := none, ctx := 0, wgCount := 0, doneClosed := false,
    watchers := 0, loops := 0 }

/-- `WithContext(ctx)`: stores the given context value. -/
def WithContext (p : SSHProxy) (c : Nat) : SSHProxy :=
  { p with ctx := c }

/-- A Go runtime panic relevant to this code. -/
inductive GoPanic where
  | closeOfClosedChannel
deriving DecidableEq, Repr

/-- Go's `close(ch)` applied to a channel whose closed-flag is `b`:
closing an already-closed channel panics. -/
def closeChan (b : Bool) : Except GoPanic Bool :=
  if b then Except.error GoPanic.closeOfClosedChannel else Except.ok true

/-- `Shutdown()`: `close(p.done)` followed by `p.wg.Wait()`. The `close`
panics when `done` is already closed. The blocking `Wait` returns only
once the shared counter reaches zero; whether that happens is analysed
through the task machines' join-slot bookkeeping (`wgHeld`, `wgCount`),
so the returned state here just records the closed `done` flag. -/
def Shutdown (p : SSHProxy) : Except GoPanic SSHProxy :=
  match closeChan p.doneClosed with
  | Except.error e => Except.error e
  | Except.ok b => Except.ok { p with doneClosed := b }

/-- Errors surfaced by `Connect`, tagged by which call produced them:
`keyRead` from `ioutil.ReadFile`, `keyParse` from `ssh.ParsePrivateKey`,
`dial` from `ssh.Dial`. -/
inductive ConnectError where
  | keyRead (msg : String)
  | keyParse (msg : String)
  | dial (msg : String)
deriving DecidableEq, Repr

/-- Whether a `Connect` result is a key-related error. -/
def isKeyError : Option ConnectError → Bool
  | some (ConnectError.keyRead _) => true
  | some (ConnectError.keyParse _) => true
  | _ => false

/-- The `HostKeyCallback` closure installed by `makeConfig`:
`func(hostname string, remote net.Addr, key ssh.PublicKey) error
\x7b return nil \x7d` — it always accepts the presented host key.
A `none` result is the `nil` error (acceptance). -/
def hostKeyCallback (_hostname : String) (_remoteAddr : String)
    (_key : List Nat) : Option String :=
  none

/-- `ssh.ClientConfig` as built by `makeConfig`: the user, the public-key
auth signers, and the host-key callback. -/
structure ClientConfig where
  user : String
  auth : List Nat
  hostKeyCb : String → String → List Nat → Option String

/-- The external SSH/file-system capabilities `Connect` relies on:
`readFile` is `ioutil.ReadFile`, `parseKey` is `ssh.ParsePrivateKey`
(returning a signer id), `dial` is `ssh.Dial "tcp"` (returning a
transport handle). -/
structure SSHEnv where
  readFile : String → Except String (List Nat)
  parseKey : List Nat → Except String Nat
  dial : String → ClientConfig → Except String Nat

/-- `parsePrivateKey`: read the key file at `cfg.PrivateKeyPath`, then
parse it. Errors are returned to the caller unchanged (tagged here by
their origin). -/
def parsePrivateKey (env : SSHEnv) (cfg : Config) : Except ConnectError Nat :=
  match env.readFile cfg.privateKeyPath with
  | Except.error e => Except.error (ConnectError.keyRead e)
  | Except.ok buff =>
    match env.parseKey buff with
    | Except.error e => Except.error (ConnectError.keyParse e)
    | Except.ok key => Except.ok key

/-- `makeConfig`: parse the private key and build the `ssh.ClientConfig`
with public-key auth for `cfg.RemoteUser` and the always-accept
host-key callback. -/
def makeConfig (env : SSHEnv) (cfg : Config) : Except ConnectError ClientConfig :=
  match parsePrivateKey env cfg with
  | Except.error e => Except.error e
  | Except.ok key =>
      Except.ok { user := cfg.remoteUser, auth := [key], hostKeyCb := hostKeyCallback }

/-- `Connect()`: build the client config (returning its error on
failure), `ssh.Dial` the remote address (returning its error on
failure); on success `wg.Add(1)`, spawn the transport-watcher goroutine
and store the connection handle in `p.conn`. The pair's second component
is the returned `error` value (`none` = `nil`). -/
def Connect (env : SSHEnv) (p : SSHProxy) : SSHProxy × Option ConnectError :=
  match makeConfig env p.cfg with
  | Except.error e => (p, some e)
  | Except.ok cc =>
    match env.dial p.cfg.remoteAddress cc with
    | Except.error e => (p, some (ConnectError.dial e))
    | Except.ok conn =>
      ({ p with wgCount := p.wgCount + 1, watchers := p.watchers + 1,
                conn := some conn }, none)

/-- The world visible to the transport-watcher goroutine spawned by
`Connect`: the `done` flag it blocks on, the transport handle and its
closed-state, the shared WaitGroup counter, and the log. -/
structure TransportWorld where
  doneClosed : Bool
  conn : Option Nat
  connClosed : Bool
  wgCount : Nat
  logs : List String
deriving DecidableEq, Repr

/-- Body of the goroutine spawned by `Connect` after `<-p.done` has
delivered (the goroutine blocks on the `done` channel until it is
closed, so this function describes its behaviour from a world where
`doneClosed = true`): close the transport, log a close error if
`conn.Close()` returned one, log the info line, and release the join
slot with `p.wg.Done()`. The handle `conn` itself is never set back to
`nil`. -/
def transportWatcherBody (closeErr : Option String) (t : TransportWorld) :
    TransportWorld :=
  { t with connClosed := true,
           logs := t.logs ++
             (match closeErr with
              | some m => ["error closing connection: " ++ m]
              | none => []) ++ ["ssh connection closed"],
           wgCount := t.wgCount - 1 }

/-- Where the accept-loop goroutine of `Forward` currently is:
blocked in `listener.Accept()`, blocked in the one-armed
`select \x7b case <-p.done: ... \x7d`, or returned. -/
inductive LoopPhase where
  | inAccept
  | inSelect
  | exited
deriving DecidableEq, Repr

/-- State of one accept-loop goroutine together with the shared flags it
observes: its phase, the shared `done`-closed flag, whether its listener
is still open, how many local connections it has accepted, how many
`handleClient` goroutines it has spawned, and whether the `wg.Add(1)`
registration made by `Forward` is still outstanding (no `wg.Done` yet). -/
structure LoopState where
  phase : LoopPhase
  doneClosed : Bool
  listenerOpen : Bool
  accepted : Nat
  pipes : Nat
  wgHeld : Bool
deriving DecidableEq, Repr

/-- Events the accept-loop goroutine can observe: a local client
connects (so a blocked `Accept` returns it), `Accept` returns a
non-shutdown error, or the `done` channel is closed. -/
inductive LoopEvent where
  | connArrive
  | acceptError
  | closeDone
deriving DecidableEq, Repr

/-- One scheduling step of the accept-loop goroutine of `Forward`,
transcribing its body:

* blocked in `Accept`, a connection arrives: `Accept` returns it,
  `go p.handleClient(local, remote)` is spawned, and the loop falls into
  the one-armed `select` on `done` — which delivers immediately when
  `done` is already closed (close the listener, `wg.Done()`, return) and
  otherwise blocks;
* blocked in `Accept`, `Accept` returns an error: the error is logged
  and the goroutine returns — with no `wg.Done()` and no listener close;
* blocked in `Accept`, `done` is closed: `Accept` does not watch `done`,
  so the goroutine simply stays blocked in `Accept`;
* blocked in the `select`, `done` is closed: the case fires — close the
  listener, `wg.Done()`, return. -/
def loopStep (s : LoopState) (e : LoopEvent) : LoopState :=
  match s.phase, e with
  | LoopPhase.inAccept, LoopEvent.connArrive =>
      let s1 := { s with accepted := s.accepted + 1, pipes := s.pipes + 1,
                         phase := LoopPhase.inSelect }
      if s1.doneClosed then
        { s1 with listenerOpen := false, wgHeld := false, phase := LoopPhase.exited }
      else s1
  | LoopPhase.inAccept, LoopEvent.acceptError =>
      { s with phase := LoopPhase.exited }
  | LoopPhase.inAccept, LoopEvent.closeDone =>
      { s with doneClosed := true }
  | LoopPhase.inSelect, LoopEvent.closeDone =>
      { s with doneClosed := true, listenerOpen := false, wgHeld := false,
               phase := LoopPhase.exited }
  | LoopPhase.inSelect, _ => s
  | LoopPhase.exited, _ => s

/-- Run the accept-loop goroutine over a trace of observed events. -/
def runLoop (s : LoopState) (events : List LoopEvent) : LoopState :=
  events.foldl loopStep s

/-- The accept-loop goroutine right after a successful `Forward`:
listener bound and open, `wg.Add(1)` done, blocked in `Accept`,
`done` not yet closed. -/
def loopInit : LoopState :=
  { phase := LoopPhase.inAccept, doneClosed := false, listenerOpen := true,
    accepted := 0, pipes := 0, wgHeld := true }

/-- `Forward(remote, localPort)`: `net.Listen("tcp", "127.0.0.1:"++localPort)`
(outcome supplied by `listen`, which returns the bound address);
on failure return `("", err)`; on success `wg.Add(1)`, spawn the accept
loop goroutine (its initial state is `loopInit`) and return the bound
address. -/
def Forward (listen : String → Except String String) (p : SSHProxy)
    (_remote _localPort : String) : SSHProxy × Except String (String × LoopState) :=
  match listen ("127.0.0.1:" ++ _localPort) with
  | Except.error e => (p, Except.error e)
  | Except.ok addr =>
      ({ p with wgCount := p.wgCount + 1, loops := p.loops + 1 },
       Except.ok (addr, loopInit))

/-- State of one ClientPipe (`handleClient`'s goroutines): whether each
copy direction has terminated, whether each connection has been closed,
whether the teardown goroutine has released its `p.wg` join slot, and
the error log. -/
structure PipeState where
  l2rDone : Bool
  r2lDone : Bool
  localClosed : Bool
  remoteClosed : Bool
  wgReleased : Bool
  logs : List String
deriving DecidableEq, Repr

/-- A freshly spawned ClientPipe: both copies running, nothing closed,
the teardown goroutine's `p.wg.Add(1)` slot held. -/
def pipeInit : PipeState :=
  { l2rDone := false, r2lDone := false, localClosed := false,
    remoteClosed := false, wgReleased := false, logs := [] }

/-- Termination events of the two copy goroutines: `io.Copy(local, remote)`
(the remote → local direction) or `io.Copy(remote, local)` (the
local → remote direction) returns, with an I/O error or by EOF. -/
inductive PipeEvent where
  | remoteToLocalDone (err : Option String)
  | localToRemoteDone (err : Option String)
deriving DecidableEq, Repr

/-- Close errors the two `Close()` calls of the teardown goroutine may
produce. -/
structure CloseErrs where
  localClose : Option String
  remoteClose : Option String
deriving DecidableEq, Repr

/-- The error line a finished copy direction logs, if it ended in error. -/
def copyErrLog (dir : String) (e : Option String) : List String :=
  match e with
  | some m => ["error while copying " ++ dir ++ ": " ++ m]
  | none => []

/-- The error line a `Close()` call logs, if it returned an error. -/
def closeLog (what : String) (e : Option String) : List String :=
  match e with
  | some m => ["error closing " ++ what ++ " connection: " ++ m]
  | none => []

/-- The teardown goroutine of `handleClient` after its `wg.Wait()`
returns (both copy directions terminated): close the local connection,
close the remote connection, log any close errors, `p.wg.Done()`. -/
def pipeTeardown (ce : CloseErrs) (s : PipeState) : PipeState :=
  { s with localClosed := true, remoteClosed := true, wgReleased := true,
           logs := s.logs ++ closeLog "local" ce.localClose ++
                   closeLog "remote" ce.remoteClose }

/-- One event of a running ClientPipe: record the finished direction
(logging its error, if any); if both directions have now terminated, the
teardown goroutine's `wg.Wait()` returns and the teardown runs. Before
both have terminated the inner WaitGroup still blocks it, so nothing is
closed. -/
def pipeStep (ce : CloseErrs) (s : PipeState) (e : PipeEvent) : PipeState :=
  let s1 := match e with
    | PipeEvent.remoteToLocalDone err =>
        { s with r2lDone := true,
                 logs := s.logs ++ copyErrLog "remote -> local" err }
    | PipeEvent.localToRemoteDone err =>
        { s with l2rDone := true,
                 logs := s.logs ++ copyErrLog "local -> remote" err }
  if s1.l2rDone && s1.r2lDone && !s1.wgReleased then pipeTeardown ce s1 else s1

/-- The tunnel-dial capability used by `handleClient`:
`p.conn.Dial("tcp", remoteConnect)` on transport handle `conn`,
returning a remote-connection handle. -/
structure TunnelEnv where
  tunnelDial : Nat → String → Except String Nat

/-- `handleClient(local, remoteConnect)`: dial `remoteConnect` through
the tunnel. On failure, log `remote dial error` and return — dropping
only this local connection and touching nothing else (no pipe is
spawned, the proxy state is returned unchanged). On success, spawn the
two copy goroutines and the teardown goroutine (a fresh `pipeInit`) and
register the teardown's join slot with `p.wg.Add(1)`. The result is
`none` when `p.conn` is `nil` (the method call on the nil client would
crash; the code never dials before a successful `Connect`). The function
itself returns no error to its caller in any case. -/
def handleClient (env : TunnelEnv) (p : SSHProxy) (remoteConnect : String) :
    Option (SSHProxy × Option PipeState × List String) :=
  match p.conn with
  | none => none
  | some c =>
    match env.tunnelDial c remoteConnect with
    | Except.error e =>
        some (p, none, ["remote dial error: " ++ e])
    | Except.ok _remote =>
        some ({ p with wgCount := p.wgCount + 1 }, some pipeInit, [])

/-! ## Concrete fixtures used by witnesses, counterexamples and defect
evaluations. -/

/-- A concrete configuration. -/
def cfg0 : Config :=
  { privateKeyPath := "/home/elliot/.ssh/id_rsa", remoteUser := "elliot",
    remoteAddress := "bentlogic.net:22" }

/-- An environment whose key file is unreadable. -/
def envBadKey : SSHEnv :=
  { readFile := fun _ => Except.error "open /home/elliot/.ssh/id_rsa: no such file or directory",
    parseKey := fun _ => Except.error "ssh: no key found",
    dial := fun _ _ => Except.error "unreachable" }

/-- An environment whose key file reads fine but does not parse. -/
def envBadParse : SSHEnv :=
  { readFile := fun _ => Except.ok [110, 111, 116, 97, 107, 101, 121],
    parseKey := fun _ => Except.error "ssh: no key found",
    dial := fun _ _ => Except.error "unreachable" }

/-- An environment where key reading, key parsing and dialing all
succeed: signer id 7, transport handle 42. -/
def envGood : SSHEnv :=
  { readFile := fun _ => Except.ok [48, 49, 50],
    parseKey := fun _ => Except.ok 7,
    dial := fun _ _ => Except.ok 42 }

/-- The client configuration `makeConfig` builds in `envGood`. -/
def goodClientConfig : ClientConfig :=
  { user := cfg0.remoteUser, auth := [7], hostKeyCb := hostKeyCallback }

/-- A proxy that has successfully connected (transport handle 42). -/
def pConn : SSHProxy :=
  { cfg := cfg0, conn := some 42, ctx := 0, wgCount := 1, doneClosed := false,
    watchers := 1, loops := 0 }

/-- A tunnel whose remote end refuses every dial. -/
def envRefuse : TunnelEnv :=
  { tunnelDial := fun _ _ => Except.error "connection refused" }

/-- A transport-watcher world in which the stop signal has fired. -/
def tw0 : TransportWorld :=
  { doneClosed := true, conn := some 42, connClosed := false, wgCount := 1,
    logs := [] }

/-- The accept-loop state after the stop signal fires while the loop is
blocked in `Accept`: still blocked, nothing released. -/
def stuckLoop : LoopState :=
  { phase := LoopPhase.inAccept, doneClosed := true, listenerOpen := true,
    accepted := 0, pipes := 0, wgHeld := true }

/-- Absorption: once the loop sits blocked in `Accept` with `done`
already closed, further stop-signal activity never moves it. -/
theorem runLoop_stuck (n : Nat) :
    runLoop stuckLoop (List.replicate n LoopEvent.closeDone) = stuckLoop := by
  induction n with
  | zero => rfl
  | succ n ih =>
      rw [List.replicate_succ]
      exact ih

/-! ## Claims -/

/-- C1: the claim demands that once the stop signal fires (the `done`
channel closes) every accept loop closes its listener and exits, and
hence `Shutdown()`'s join wait returns, in bounded time even with no
further accepted connections. Evaluating the accept-loop goroutine on
the failing run — the stop signal fires (any number of times) while the
loop is blocked in `Accept` and no local connection ever arrives — the
code instead keeps the goroutine blocked in `Accept` forever: the
listener stays open and the loop's `wg` join slot is never released, so
`p.wg.Wait()` inside `Shutdown` cannot return. -/
theorem accept_loop_ignores_stop_signal (n : Nat) :
    (runLoop loopInit (List.replicate n LoopEvent.closeDone)).phase = LoopPhase.inAccept ∧
    (runLoop loopInit (List.replicate n LoopEvent.closeDone)).listenerOpen = true ∧
    (runLoop loopInit (List.replicate n LoopEvent.closeDone)).wgHeld = true := by
  cases n with
  | zero => exact ⟨rfl, rfl, rfl⟩
  | succ m =>
      rw [List.replicate_succ]
      show (runLoop stuckLoop (List.replicate m LoopEvent.closeDone)).phase = LoopPhase.inAccept ∧
        (runLoop stuckLoop (List.replicate m LoopEvent.closeDone)).listenerOpen = true ∧
        (runLoop stuckLoop (List.replicate m LoopEvent.closeDone)).wgHeld = true
      rw [runLoop_stuck]
      exact ⟨rfl, rfl, rfl⟩

/-- C2: the claim says the accept loop repeatedly accepts incoming local
connections, spawning a `handleClient` for each one, not just the first.
Evaluating the loop on a run where two local connections arrive (stop
signal never fired): only the first is accepted and handled; after it
the goroutine is parked in the one-armed `select` on `done`, so the
second connection is never accepted. -/
theorem accept_loop_accepts_only_first :
    (runLoop loopInit [LoopEvent.connArrive, LoopEvent.connArrive]).accepted = 1 ∧
    (runLoop loopInit [LoopEvent.connArrive, LoopEvent.connArrive]).pipes = 1 ∧
    (runLoop loopInit [LoopEvent.connArrive, LoopEvent.connArrive]).phase = LoopPhase.inSelect := by
  decide

/-- C3: the claim says triggering the stop signal twice (two `Shutdown`
calls) must not panic. Evaluating the code: the first `Shutdown` on a
fresh proxy closes `done`; the second executes `close(p.done)` on the
already-closed channel, which is the Go runtime panic
"close of closed channel". -/
theorem shutdown_twice_panics :
    (Shutdown (New cfg0)).bind Shutdown = Except.error GoPanic.closeOfClosedChannel := by
  rfl

/-- C4: the claim says every task registered on the shared join counter
deregisters exactly once on every exit path — in particular the accept
loop must deregister when `Accept` returns a non-shutdown error.
Evaluating the accept loop on the run where `Accept` returns such an
error: the goroutine exits, but its `wg` join slot is still held
(`return` without `wg.Done()`), leaving `Shutdown`'s `wg.Wait()` with a
permanently outstanding count. -/
theorem accept_error_leaks_join_slot :
    (runLoop loopInit [LoopEvent.acceptError]).phase = LoopPhase.exited ∧
    (runLoop loopInit [LoopEvent.acceptError]).wgHeld = true ∧
    (runLoop loopInit [LoopEvent.acceptError]).listenerOpen = true := by
  decide

/-- C5: for every configuration whose private key is unreadable or whose
key content is malformed, `Connect` returns a key-related error, the
proxy state is returned unchanged (so no transport-watcher task is
spawned and the join count is unaffected) and the transport handle is
left exactly as it was — absent (`nil`) on a fresh proxy. -/
theorem connect_invalid_key_no_task (env : SSHEnv) (p : SSHProxy)
    (h : (∃ m, env.readFile p.cfg.privateKeyPath = Except.error m) ∨
         (∃ b m, env.readFile p.cfg.privateKeyPath = Except.ok b ∧
            env.parseKey b = Except.error m)) :
    (Connect env p).1 = p ∧ isKeyError (Connect env p).2 = true ∧
    (Connect env p).1.conn = p.conn := by
  obtain ⟨m, hm⟩ | ⟨b, m, hb, hm⟩ := h
  · simp [Connect, makeConfig, parsePrivateKey, hm, isKeyError]
  · simp [Connect, makeConfig, parsePrivateKey, hb, hm, isKeyError]

/-- Witness for C5 at a concrete unreadable-key environment. -/
theorem connect_invalid_key_no_task_witness :
    ((Connect envBadKey (New cfg0)).1 = New cfg0 ∧
     isKeyError (Connect envBadKey (New cfg0)).2 = true ∧
     (Connect envBadKey (New cfg0)).1.conn = (New cfg0).conn) ∧
    (New cfg0).conn = none :=
  ⟨connect_invalid_key_no_task envBadKey (New cfg0)
      (Or.inl ⟨"open /home/elliot/.ssh/id_rsa: no such file or directory", rfl⟩),
   rfl⟩

/-- C6: every successful `Connect` spawns exactly one transport-watcher
task (`watchers` rises by exactly one, alongside its `wg.Add(1)`
registration) and stores the transport handle (`conn` becomes
`some c`); the watcher's body — run once the stop signal has fired —
does nothing but close the transport (logging any close error) and
release its join slot, and it never clears the stored handle. -/
theorem connect_success_spawns_one_watcher (env : SSHEnv) (p : SSHProxy)
    (cc : ClientConfig) (c : Nat)
    (hk : makeConfig env p.cfg = Except.ok cc)
    (hd : env.dial p.cfg.remoteAddress cc = Except.ok c) :
    Connect env p =
      ({ p with wgCount := p.wgCount + 1, watchers := p.watchers + 1,
                conn := some c }, none) ∧
    (∀ (ce : Option String) (t : TransportWorld), t.doneClosed = true →
       (transportWatcherBody ce t).connClosed = true ∧
       (transportWatcherBody ce t).conn = t.conn ∧
       (transportWatcherBody ce t).wgCount = t.wgCount - 1) := by
  constructor
  · simp [Connect, hk, hd]
  · intro ce t _
    exact ⟨rfl, rfl, rfl⟩

/-- Witness for C6 at a concrete fully-successful environment. -/
theorem connect_success_spawns_one_watcher_witness :
    (Connect envGood (New cfg0) =
      ({ New cfg0 with wgCount := (New cfg0).wgCount + 1,
                       watchers := (New cfg0).watchers + 1,
                       conn := some 42 }, none)) ∧
    ((transportWatcherBody (some "use of closed network connection") tw0).connClosed = true ∧
     (transportWatcherBody (some "use of closed network connection") tw0).conn = tw0.conn ∧
     (transportWatcherBody (some "use of closed network connection") tw0).wgCount = tw0.wgCount - 1) :=
  ⟨(connect_success_spawns_one_watcher envGood (New cfg0) goodClientConfig 42 rfl rfl).1,
   (connect_success_spawns_one_watcher envGood (New cfg0) goodClientConfig 42 rfl rfl).2
     (some "use of closed network connection") tw0 rfl⟩

/-- C7: a ClientPipe is done exactly when both copy directions have
terminated: after only one direction finishes (either one, with or
without an I/O error) neither connection is closed and the join slot is
still held; once the second direction finishes — in either order — both
connections are closed and the join slot is released. Copy errors and
close errors go to the log; the pipe functions return no error to any
caller. -/
theorem pipe_closes_after_both_directions (ce : CloseErrs) (e1 e2 : Option String) :
    ((pipeStep ce pipeInit (PipeEvent.remoteToLocalDone e1)).localClosed = false ∧
     (pipeStep ce pipeInit (PipeEvent.remoteToLocalDone e1)).remoteClosed = false ∧
     (pipeStep ce pipeInit (PipeEvent.remoteToLocalDone e1)).wgReleased = false) ∧
    ((pipeStep ce pipeInit (PipeEvent.localToRemoteDone e1)).localClosed = false ∧
     (pipeStep ce pipeInit (PipeEvent.localToRemoteDone e1)).remoteClosed = false ∧
     (pipeStep ce pipeInit (PipeEvent.localToRemoteDone e1)).wgReleased = false) ∧
    ((pipeStep ce (pipeStep ce pipeInit (PipeEvent.remoteToLocalDone e1))
        (PipeEvent.localToRemoteDone e2)).localClosed = true ∧
     (pipeStep ce (pipeStep ce pipeInit (PipeEvent.remoteToLocalDone e1))
        (PipeEvent.localToRemoteDone e2)).remoteClosed = true ∧
     (pipeStep ce (pipeStep ce pipeInit (PipeEvent.remoteToLocalDone e1))
        (PipeEvent.localToRemoteDone e2)).wgReleased = true) ∧
    ((pipeStep ce (pipeStep ce pipeInit (PipeEvent.localToRemoteDone e1))
        (PipeEvent.remoteToLocalDone e2)).localClosed = true ∧
     (pipeStep ce (pipeStep ce pipeInit (PipeEvent.localToRemoteDone e1))
        (PipeEvent.remoteToLocalDone e2)).remoteClosed = true ∧
     (pipeStep ce (pipeStep ce pipeInit (PipeEvent.localToRemoteDone e1))
        (PipeEvent.remoteToLocalDone e2)).wgReleased = true) ∧
    (pipeStep ce pipeInit (PipeEvent.remoteToLocalDone (some "broken pipe"))).logs =
      ["error while copying remote -> local: broken pipe"] ∧
    (pipeTeardown { localClose := some "broken pipe", remoteClose := none } pipeInit).logs =
      ["error closing local connection: broken pipe"] :=
  ⟨⟨rfl, rfl, rfl⟩, ⟨rfl, rfl, rfl⟩, ⟨rfl, rfl, rfl⟩, ⟨rfl, rfl, rfl⟩, rfl, rfl⟩

/-- C8 counterexample: in the run where the sole accepted local
connection's tunnel dial fails, the failure is indeed logged and drops
only that connection — the listener is still open — but the accept-loop
goroutine is not accepting: it is parked in the one-armed `select` on
`done`, refuting the claim's "the listener remains open and accepting". -/
theorem dial_failure_loop_not_accepting :
    handleClient envRefuse pConn "service.internal:8080" =
      some (pConn, none, ["remote dial error: connection refused"]) ∧
    (runLoop loopInit [LoopEvent.connArrive]).listenerOpen = true ∧
    (runLoop loopInit [LoopEvent.connArrive]).phase ≠ LoopPhase.inAccept :=
  ⟨rfl, rfl, by decide⟩

/-- C8 amended: for every accepted local connection whose dial through
the tunnel fails, `handleClient` logs the failure and returns, dropping
only that connection: no pipe is spawned, and the proxy state — the
transport handle, the join counter, every field — is returned unchanged,
so neither the listener, nor other in-flight ClientPipes, nor the
transport are affected. (The accept loop itself is meanwhile parked in
the `select` on `done`, so it is not accepting further connections; see
the counterexample.) -/
theorem dial_failure_isolated (env : TunnelEnv) (p : SSHProxy) (c : Nat)
    (r e : String)
    (hc : p.conn = some c) (hd : env.tunnelDial c r = Except.error e) :
    handleClient env p r = some (p, none, ["remote dial error: " ++ e]) := by
  simp [handleClient, hc, hd]

/-- Witness for the amended C8 at a concrete refused dial. -/
theorem dial_failure_isolated_witness :
    handleClient envRefuse pConn "www.bentlogic.net:80" =
      some (pConn, none, ["remote dial error: " ++ "connection refused"]) :=
  dial_failure_isolated envRefuse pConn 42 "www.bentlogic.net:80"
    "connection refused" rfl rfl

/-- C9: for every hostname, remote address and presented host key, the
host-key callback of any client configuration built by `makeConfig`
returns `nil` — the host key is accepted unconditionally, with no
verification. -/
theorem host_key_always_accepted (env : SSHEnv) (cfg : Config)
    (cc : ClientConfig) (h : makeConfig env cfg = Except.ok cc)
    (hostname remoteAddr : String) (key : List Nat) :
    cc.hostKeyCb hostname remoteAddr key = none := by
  unfold makeConfig at h
  cases hp : parsePrivateKey env cfg with
  | error e => rw [hp] at h; exact Except.noConfusion h
  | ok k => rw [hp] at h; cases h; rfl

/-- Witness for C9 at a concrete environment and host key. -/
theorem host_key_always_accepted_witness :
    makeConfig envGood cfg0 = Except.ok goodClientConfig ∧
    goodClientConfig.hostKeyCb "github.com" "140.82.121.4:22" [1, 2, 3] = none :=
  ⟨rfl, host_key_always_accepted envGood cfg0 goodClientConfig rfl
     "github.com" "140.82.121.4:22" [1, 2, 3]⟩

/-- C10: the context stored by `WithContext` is never read: for any two
context values, `Connect`, `Forward`, `handleClient` and `Shutdown`
compute the same results (up to the stored context itself), and
storing a context — cancelled or not — never touches the `done` flag:
the stop signal fires only through `Shutdown`'s own `close`. -/
theorem context_never_read (env : SSHEnv) (tenv : TunnelEnv)
    (listen : String → Except String String) (p : SSHProxy) (c : Nat)
    (remote localPort r : String) :
    (Connect env (WithContext p c)).1 = WithContext (Connect env p).1 c ∧
    (Connect env (WithContext p c)).2 = (Connect env p).2 ∧
    (Forward listen (WithContext p c) remote localPort).1 =
      WithContext (Forward listen p remote localPort).1 c ∧
    (Forward listen (WithContext p c) remote localPort).2 =
      (Forward listen p remote localPort).2 ∧
    handleClient tenv (WithContext p c) r =
      (handleClient tenv p r).map (fun x => (WithContext x.1 c, x.2)) ∧
    Shutdown (WithContext p c) = (Shutdown p).map (fun q => WithContext q c) ∧
    (WithContext p c).doneClosed = p.doneClosed := by
  obtain ⟨pcfg, pconn, pctx, pwg, pdone, pwatch, ploops⟩ := p
  refine ⟨?_, ?_, ?_, ?_, ?_, ?_, rfl⟩
  · cases hm : makeConfig env pcfg with
    | error e => simp [Connect, WithContext, hm]
    | ok cc =>
        cases hd : env.dial pcfg.remoteAddress cc with
        | error e2 => simp [Connect, WithContext, hm, hd]
        | ok cn => simp [Connect, WithContext, hm, hd]
  · cases hm : makeConfig env pcfg with
    | error e => simp [Connect, WithContext, hm]
    | ok cc =>
        cases hd : env.dial pcfg.remoteAddress cc with
        | error e2 => simp [Connect, WithContext, hm, hd]
        | ok cn => simp [Connect, WithContext, hm, hd]
  · cases hl : listen ("127.0.0.1:" ++ localPort) with
    | error e => simp [Forward, WithContext, hl]
    | ok addr => simp [Forward, WithContext, hl]
  · cases hl : listen ("127.0.0.1:" ++ localPort) with
    | error e => simp [Forward, WithContext, hl]
    | ok addr => simp [Forward, WithContext, hl]
  · cases pconn with
    | none => simp [handleClient, WithContext]
    | some cn =>
        cases hd : tenv.tunnelDial cn r with
        | error e => simp [handleClient, WithContext, hd]
        | ok rm => simp [handleClient, WithContext, hd]
  · cases pdone with
    | false => simp [Shutdown, WithContext, closeChan, Except.map]
    | true => simp [Shutdown, WithContext, closeChan, Except.map]

end SshHttpProxy
